import Mathlib

/-!
Shallow embedding of the opt-in usage-telemetry pipeline of this repository:

* `PrivacyService` (packages/cli/src/services/privacyService.ts) — consent
  flags and the per-field tracking decisions.
* `InteractionTracker` (packages/cli/src/services/interactionTracker.ts,
  bundled into packages/cli/src/services/enhancedLogger.ts in this source
  drop) — the pending queue, the privacy filter applied on enqueue, the
  batch processor, update-by-id, and flush.
* `SupabaseService` (packages/cli/src/services/supabaseClient.ts,
  src/unnamed/part_001) — the remote-sink wrapper `logUserInteraction`
  with its validation, numeric coercion, transient-error classification
  and bounded retry with exponential backoff.

JavaScript numbers that claims inspect through `Number.isInteger` are
modelled by `JSNum` (an integer, or some non-integer numeric value);
`undefined`/absent optional fields are `Option.none`.  Object spread
`\x7b...a, ...b\x7d` over metadata objects is modelled on association
lists by `mergeMeta`.  Side effects irrelevant to every claim (console
logging, wall-clock timestamps, the `config` handle used only to look up
an account email, timer registration) are elided; timestamps that the
code stores are passed in as opaque strings.
-/

namespace Telemetry

/-- A JavaScript number as far as the pipeline observes it: either an
integer value or some non-integer number (a fraction, `NaN`, ...).
`Number.isInteger` is true exactly on `intVal`. -/
inductive JSNum where
  | intVal (i : Int)
  | nonInt
deriving DecidableEq, Repr

/-- `Number.isInteger` on a `JSNum`. -/
def JSNum.isInteger : JSNum → Bool
  | .intVal _ => true
  | .nonInt => false

/-- A metadata object: association list from keys to (opaque) values.
Later entries win on lookup conflicts are avoided by `mergeMeta`. -/
abbrev Metadata := List (String × String)

/-- Key lookup in a metadata object. -/
def lookupMeta (k : String) : Metadata → Option String
  | [] => none
  | p :: m => if p.1 == k then some p.2 else lookupMeta k m

/-- JavaScript object spread `\x7b...a, ...b\x7d`: every key of `b` wins over
the same key of `a`; keys only in `a` survive. -/
def mergeMeta (a b : Metadata) : Metadata :=
  a.filter (fun p => (lookupMeta p.1 b).isNone) ++ b

/-- `TrackingData` (interactionTracker.ts lines 111-126).  The `config`
handle is elided: the pipeline only threads it to an account-email
lookup that no claim depends on. -/
structure TrackingData where
  promptText : String
  promptId : String
  sessionId : String
  modelName : Option String := none
  authType : Option String := none
  inputTokenCount : Option JSNum := none
  outputTokenCount : Option JSNum := none
  totalTokenCount : Option JSNum := none
  cachedTokenCount : Option JSNum := none
  thoughtsTokenCount : Option JSNum := none
  toolTokenCount : Option JSNum := none
  responseDurationMs : Option JSNum := none
  metadata : Option Metadata := none
deriving DecidableEq, Repr

/-- `PrivacySettings` (privacyService.ts lines 12-21); `consentDate` and
the retention fields are irrelevant to the claims and elided except for
`lastPromptDate`, which claim C3 inspects. -/
structure PrivacySettings where
  supabaseTrackingEnabled : Bool
  trackPrompts : Bool
  trackTokens : Bool
  trackMetadata : Bool
  consentGiven : Bool
  lastPromptDate : Option String := none
deriving DecidableEq, Repr

/-- `PrivacyService.isTrackingEnabled` (privacyService.ts line 70). -/
def isTrackingEnabled (s : PrivacySettings) : Bool :=
  s.supabaseTrackingEnabled && s.consentGiven

/-- `PrivacyService.shouldTrackPrompts` (privacyService.ts line 74). -/
def shouldTrackPrompts (s : PrivacySettings) : Bool :=
  isTrackingEnabled s && s.trackPrompts

/-- `PrivacyService.shouldTrackTokens` (privacyService.ts line 78). -/
def shouldTrackTokens (s : PrivacySettings) : Bool :=
  isTrackingEnabled s && s.trackTokens

/-- `PrivacyService.shouldTrackMetadata` (privacyService.ts line 82). -/
def shouldTrackMetadata (s : PrivacySettings) : Bool :=
  isTrackingEnabled s && s.trackMetadata

/-- `PrivacyService.updateLastPromptDate` (privacyService.ts line 126);
the wall-clock ISO string is passed in. -/
def updateLastPromptDate (s : PrivacySettings) (now : String) : PrivacySettings :=
  { s with lastPromptDate := some now }

/-- The privacy filter applied inside `InteractionTracker.trackInteraction`
(enhancedLogger.ts lines 152-162): the construction of `filteredData`.
Spread of `data` preserves every field not explicitly overridden. -/
def filterTrackingData (p : PrivacySettings) (data : TrackingData) : TrackingData :=
  { data with
    promptText := if shouldTrackPrompts p then data.promptText else "[REDACTED]"
    inputTokenCount := if shouldTrackTokens p then data.inputTokenCount else none
    outputTokenCount := if shouldTrackTokens p then data.outputTokenCount else none
    totalTokenCount := if shouldTrackTokens p then data.totalTokenCount else none
    cachedTokenCount := if shouldTrackTokens p then data.cachedTokenCount else none
    thoughtsTokenCount := if shouldTrackTokens p then data.thoughtsTokenCount else none
    toolTokenCount := if shouldTrackTokens p then data.toolTokenCount else none
    metadata := if shouldTrackMetadata p then data.metadata else none }

/-- The record type handed to `SupabaseService.logUserInteraction`:
`Omit UserInteraction of user_email and qwen_account_email`
(supabaseClient.ts lines 11-29, 123-125). -/
structure SinkRecord where
  prompt_text : String
  prompt_id : String
  session_id : String
  model_name : Option String := none
  auth_type : Option String := none
  input_token_count : Option JSNum := none
  output_token_count : Option JSNum := none
  total_token_count : Option JSNum := none
  cached_token_count : Option JSNum := none
  thoughts_token_count : Option JSNum := none
  tool_token_count : Option JSNum := none
  response_duration_ms : Option JSNum := none
  metadata : Option Metadata := none
deriving DecidableEq, Repr

/-- The `interaction` object built inside
`InteractionTracker.processPendingInteractions` (enhancedLogger.ts lines
266-280): a field-by-field repackaging of a `TrackingData`. -/
def toInteraction (d : TrackingData) : SinkRecord where
  prompt_text := d.promptText
  prompt_id := d.promptId
  session_id := d.sessionId
  model_name := d.modelName
  auth_type := d.authType
  input_token_count := d.inputTokenCount
  output_token_count := d.outputTokenCount
  total_token_count := d.totalTokenCount
  cached_token_count := d.cachedTokenCount
  thoughts_token_count := d.thoughtsTokenCount
  tool_token_count := d.toolTokenCount
  response_duration_ms := d.responseDurationMs
  metadata := d.metadata

/-- The `UserInteraction` row actually passed to the remote insert
(supabaseClient.ts lines 148-161): the submitted record plus the account
email, with every token field coerced through `Number.isInteger`.  The
wall-clock `interaction_timestamp` and the best-effort
`qwen_account_email` lookup are elided (no claim mentions them). -/
structure UserInteraction where
  user_email : String
  prompt_text : String
  prompt_id : String
  session_id : String
  model_name : Option String := none
  auth_type : Option String := none
  input_token_count : JSNum
  output_token_count : JSNum
  total_token_count : JSNum
  cached_token_count : JSNum
  thoughts_token_count : JSNum
  tool_token_count : JSNum
  response_duration_ms : Option JSNum := none
  metadata : Option Metadata := none
deriving DecidableEq, Repr

/-- `Number.isInteger(x) ? x : 0` on an optional numeric field
(supabaseClient.ts lines 154-159). -/
def coerceTokenField (v : Option JSNum) : JSNum :=
  match v with
  | some (.intVal i) => .intVal i
  | _ => .intVal 0

/-- `Number.isInteger(x) ? x : undefined` for `response_duration_ms`
(supabaseClient.ts line 160). -/
def coerceDurationField (v : Option JSNum) : Option JSNum :=
  match v with
  | some (.intVal i) => some (.intVal i)
  | _ => none

/-- Construction of `interactionData` inside `logUserInteraction`
(supabaseClient.ts lines 148-161). -/
def buildInteractionData (userEmail : String) (i : SinkRecord) : UserInteraction where
  user_email := userEmail
  prompt_text := i.prompt_text
  prompt_id := i.prompt_id
  session_id := i.session_id
  model_name := i.model_name
  auth_type := i.auth_type
  input_token_count := coerceTokenField i.input_token_count
  output_token_count := coerceTokenField i.output_token_count
  total_token_count := coerceTokenField i.total_token_count
  cached_token_count := coerceTokenField i.cached_token_count
  thoughts_token_count := coerceTokenField i.thoughts_token_count
  tool_token_count := coerceTokenField i.tool_token_count
  response_duration_ms := coerceDurationField i.response_duration_ms
  metadata := i.metadata

/-- Outcome of one attempt of the remote insert
`client.from(user_interactions).insert([...])`: it can resolve without
error, resolve with a database error object (code, message), or reject
with an exception carrying a message. -/
inductive InsertOutcome where
  | ok
  | dbError (code : String) (msg : String)
  | throwErr (msg : String)
deriving DecidableEq, Repr

/-- Whether the first character list is an initial segment of the second. -/
def charsStartWith : List Char → List Char → Bool
  | [], _ => true
  | _ :: _, [] => false
  | a :: ps, b :: ts => a == b && charsStartWith ps ts

/-- Whether the pattern occurs contiguously in the text. -/
def charsContain (pat : List Char) : List Char → Bool
  | [] => charsStartWith pat []
  | c :: ts => charsStartWith pat (c :: ts) || charsContain pat ts

/-- Substring test, modelling JavaScript `String.prototype.includes`. -/
def containsSubstring (s pat : String) : Bool :=
  charsContain pat.data s.data

/-- The transient-error classification of `logUserInteraction`
(supabaseClient.ts lines 188-193): the thrown message names a network,
timeout, connection-refused or DNS failure. -/
def isTransientMessage (msg : String) : Bool :=
  containsSubstring msg "network" || containsSubstring msg "timeout" ||
    containsSubstring msg "ECONNREFUSED" || containsSubstring msg "ENOTFOUND"

/-- `SupabaseService.maxRetries` (supabaseClient.ts line 43). -/
def maxRetries : Nat := 3

/-- `SupabaseService.retryDelay`, milliseconds (supabaseClient.ts line 44). -/
def retryDelay : Nat := 1000

/-- Result of one outermost `logUserInteraction` call: the boolean the
promise resolves to, the sink-level shared retry counter afterwards, the
number of insert attempts made, the backoff delays slept (ms, in order),
and the rows passed to the insert, in order.  The call never rejects:
every path of the source returns a boolean (the whole body after the
guards sits in a try/catch whose catch returns). -/
structure SinkCallResult where
  success : Bool
  retryCount : Nat
  attempts : Nat
  delays : List Nat
  sentRecords : List UserInteraction
deriving DecidableEq, Repr

/-- The insert-and-retry loop of `logUserInteraction` together with
`retryLogInteraction` (supabaseClient.ts lines 148-216), reached once the
enabled/validation guards pass.  The script `outcomes` supplies the result
of each successive insert attempt; an exhausted script means the insert
succeeds.  On success the shared retry counter resets to 0 (line 181); a
resolved database error returns false without retrying (lines 167-179); a
thrown transient message enters `retryLogInteraction`, which gives up
(resetting the counter) once the counter has reached `maxRetries` and
otherwise bumps it, sleeps `retryDelay * 2 ^ (retryCount - 1)` ms and
re-enters `logUserInteraction` (lines 201-216); any other exception
returns false. -/
def insertAttempts (userEmail : String) (i : SinkRecord) : Nat → List InsertOutcome → SinkCallResult
  | _, [] =>
      ⟨true, 0, 1, [], [buildInteractionData userEmail i]⟩
  | rc, outcome :: rest =>
      let sent := buildInteractionData userEmail i
      match outcome with
      | .ok => ⟨true, 0, 1, [], [sent]⟩
      | .dbError _ _ => ⟨false, rc, 1, [], [sent]⟩
      | .throwErr msg =>
          if isTransientMessage msg then
            if maxRetries ≤ rc then
              ⟨false, 0, 1, [], [sent]⟩
            else
              let rc2 := rc + 1
              let d := retryDelay * 2 ^ (rc2 - 1)
              let r := insertAttempts userEmail i rc2 rest
              ⟨r.success, r.retryCount, r.attempts + 1, d :: r.delays, sent :: r.sentRecords⟩
          else ⟨false, rc, 1, [], [sent]⟩

/-- `SupabaseService.logUserInteraction` (supabaseClient.ts lines
123-199): the enabled guard (line 127) and the required-field validation
(line 133, JavaScript falsiness of a string is emptiness) make no insert
attempt; both are invariant across the internal retries, so they are
checked once here before the `insertAttempts` loop. -/
def logUserInteraction (enabled : Bool) (userEmail : String) (i : SinkRecord)
    (rc : Nat) (outcomes : List InsertOutcome) : SinkCallResult :=
  if enabled = false then ⟨false, rc, 0, [], []⟩
  else if i.prompt_text = "" ∨ i.prompt_id = "" ∨ i.session_id = "" then
    ⟨false, rc, 0, [], []⟩
  else insertAttempts userEmail i rc outcomes

/-- `InteractionTracker.batchSize` (enhancedLogger.ts line 133). -/
def batchSize : Nat := 10

/-- The mutable state of the pipeline: the tracker's pending queue and
processing flag (enhancedLogger.ts lines 131-132), the privacy settings
(privacyService.ts), the `SupabaseService.isEnabled()` answer and its
shared `retryCount` (supabaseClient.ts lines 42, 119-121). -/
structure TrackerState where
  pendingInteractions : List TrackingData
  isProcessing : Bool
  privacy : PrivacySettings
  supabaseEnabled : Bool
  sinkRetryCount : Nat
deriving DecidableEq, Repr

/-- `InteractionTracker.getQueueStatus` (enhancedLogger.ts lines 340-350). -/
def getQueueStatus (s : TrackerState) : Nat × Bool × Bool :=
  (s.pendingInteractions.length, s.isProcessing, s.supabaseEnabled)

/-- How one record's dispatch promise settles, as seen by the batch
processor: the awaited `logUserInteraction` either resolves to a boolean
or rejects with an exception. -/
inductive DispatchOutcome where
  | resolved (success : Bool)
  | rejected
deriving DecidableEq, Repr

/-- Settlement of one record of the batch (the callback of `batch.map`,
enhancedLogger.ts lines 264-288), threading the sink's shared retry
counter: a record whose dispatch promise rejects is caught and unshifted
onto the current pending list (line 286); a resolved promise — whatever
boolean it carries — leaves the pending list alone. -/
def drainStep (dispatch : TrackingData → Nat → DispatchOutcome × Nat)
    (acc : List TrackingData × Nat) (d : TrackingData) : List TrackingData × Nat :=
  match dispatch d acc.2 with
  | (.rejected, rc2) => (d :: acc.1, rc2)
  | (.resolved _, rc2) => (acc.1, rc2)

/-- `InteractionTracker.processPendingInteractions` (enhancedLogger.ts
lines 253-296).  If a drain is already in flight or nothing is pending it
returns at once having dispatched nothing (line 254).  Otherwise it sets
the processing flag, splices the first `batchSize` records out of the
queue (line 261), dispatches each of them (the settlements are modelled
in batch order), and finally clears the flag (line 294).  Returns the new
state and the records whose dispatch was started. -/
def processPendingInteractions (s : TrackerState)
    (dispatch : TrackingData → Nat → DispatchOutcome × Nat) :
    TrackerState × List TrackingData :=
  if s.isProcessing = true ∨ s.pendingInteractions = [] then (s, [])
  else
    let batch := s.pendingInteractions.take batchSize
    let rest := s.pendingInteractions.drop batchSize
    let r := batch.foldl (drainStep dispatch) (rest, s.sinkRetryCount)
    ({ s with pendingInteractions := r.1, isProcessing := false, sinkRetryCount := r.2 },
      batch)

/-- The dispatch of a single record as the batch processor performs it:
build the `interaction` object and await
`supabaseService.logUserInteraction` (enhancedLogger.ts lines 266-282),
whose insert attempts are scripted by `outcomesFor`.  The source function
returns a boolean on every path, so the promise always resolves. -/
def realDispatch (enabled : Bool) (userEmail : String)
    (outcomesFor : TrackingData → List InsertOutcome)
    (d : TrackingData) (rc : Nat) : DispatchOutcome × Nat :=
  let r := logUserInteraction enabled userEmail (toInteraction d) rc (outcomesFor d)
  (.resolved r.success, r.retryCount)

/-- Result of one `trackInteraction` call: the state afterwards, the
records whose dispatch was begun during the call, and whether the call
invoked the batch processor. -/
structure TrackOutcome where
  state : TrackerState
  dispatched : List TrackingData
  drainInvoked : Bool
deriving DecidableEq, Repr

/-- `InteractionTracker.trackInteraction` (enhancedLogger.ts lines
145-174).  If `isTrackingEnabled` is false the call returns before any
state change (lines 147-149).  Otherwise the privacy-filtered record is
appended to the tail of the queue (line 165), `lastPromptDate` is
updated (line 168), and if the pending count has reached `batchSize` the
batch processor is invoked (lines 171-173; the source does not await it —
we model the interleaving in which the triggered drain, whose batch is
spliced out synchronously, runs to completion before the next pipeline
operation). -/
def trackInteraction (dispatch : TrackingData → Nat → DispatchOutcome × Nat)
    (s : TrackerState) (now : String) (data : TrackingData) : TrackOutcome :=
  if isTrackingEnabled s.privacy = false then ⟨s, [], false⟩
  else
    let filteredData := filterTrackingData s.privacy data
    let s1 : TrackerState :=
      { s with pendingInteractions := s.pendingInteractions ++ [filteredData],
               privacy := updateLastPromptDate s.privacy now }
    if batchSize ≤ s1.pendingInteractions.length then
      let r := processPendingInteractions s1 dispatch
      ⟨r.1, r.2, true⟩
    else ⟨s1, [], false⟩

/-- The partial field set accepted by
`InteractionTracker.updateInteractionWithResponse` (enhancedLogger.ts
lines 212-220); `some` is a field the caller supplies. -/
structure ResponseData where
  outputTokenCount : Option JSNum := none
  totalTokenCount : Option JSNum := none
  cachedTokenCount : Option JSNum := none
  thoughtsTokenCount : Option JSNum := none
  toolTokenCount : Option JSNum := none
  responseDurationMs : Option JSNum := none
  metadata : Option Metadata := none
deriving DecidableEq, Repr

/-- Spread override of one scalar field: a supplied field wins over the
existing one. -/
def spreadField (given existing : Option JSNum) : Option JSNum :=
  match given with
  | some v => some v
  | none => existing

/-- The merge performed on a found pending record (enhancedLogger.ts
lines 233-241): spread of the existing record, then of the supplied
fields, then `metadata` rebuilt as the key-wise shallow merge of the two
metadata objects (an absent metadata object spreads as the empty one, so
the merged record always carries a metadata object). -/
def mergeResponse (existing : TrackingData) (r : ResponseData) : TrackingData :=
  { existing with
    outputTokenCount := spreadField r.outputTokenCount existing.outputTokenCount
    totalTokenCount := spreadField r.totalTokenCount existing.totalTokenCount
    cachedTokenCount := spreadField r.cachedTokenCount existing.cachedTokenCount
    thoughtsTokenCount := spreadField r.thoughtsTokenCount existing.thoughtsTokenCount
    toolTokenCount := spreadField r.toolTokenCount existing.toolTokenCount
    responseDurationMs := spreadField r.responseDurationMs existing.responseDurationMs
    metadata := some (mergeMeta (existing.metadata.getD []) (r.metadata.getD [])) }

/-- `InteractionTracker.updateInteractionWithResponse` (enhancedLogger.ts
lines 210-248): a no-op when the Supabase service is disabled (line 222);
otherwise the first pending record with the given `promptId` is replaced
in place by the merge, and a miss only logs (lines 226-247). -/
def updateInteractionWithResponse (s : TrackerState) (promptId : String)
    (responseData : ResponseData) : TrackerState :=
  if s.supabaseEnabled = false then s
  else
    match s.pendingInteractions.findIdx? (fun it => it.promptId == promptId) with
    | none => s
    | some idx =>
        match s.pendingInteractions[idx]? with
        | none => s
        | some existing =>
            { s with pendingInteractions :=
                s.pendingInteractions.set idx (mergeResponse existing responseData) }

/-- The while loop of `InteractionTracker.flush` (enhancedLogger.ts lines
314-318), given enough fuel: while records are pending and no drain is in
flight, run the batch processor. -/
def flushAux (dispatch : TrackingData → Nat → DispatchOutcome × Nat) :
    Nat → TrackerState → TrackerState
  | 0, s => s
  | fuel + 1, s =>
      if 0 < s.pendingInteractions.length ∧ s.isProcessing = false then
        flushAux dispatch fuel (processPendingInteractions s dispatch).1
      else s

/-- `InteractionTracker.flush` (enhancedLogger.ts lines 314-318) against
the real sink.  Each loop iteration removes a full batch from the queue
(the sink never rejects, so nothing is ever unshifted back), so the
initial pending count is enough fuel for the loop to reach its exit
condition. -/
def flush (enabled : Bool) (userEmail : String)
    (outcomesFor : TrackingData → List InsertOutcome) (s : TrackerState) : TrackerState :=
  flushAux (realDispatch enabled userEmail outcomesFor) s.pendingInteractions.length s

/-- Running a sequence of `trackInteraction` calls in order, counting how
many of them invoked the batch processor (claim C8's scenario). -/
def runTracks (dispatch : TrackingData → Nat → DispatchOutcome × Nat)
    (now : String) (s : TrackerState) (datas : List TrackingData) : TrackerState × Nat :=
  datas.foldl
    (fun acc d =>
      let o := trackInteraction dispatch acc.1 now d
      (o.state, acc.2 + if o.drainInvoked then 1 else 0))
    (s, 0)

/-! Concrete fixtures used by witnesses and counterexamples. -/

/-- A well-formed interaction record. -/
def rec0 : TrackingData :=
  { promptText := "hello", promptId := "p1", sessionId := "s1" }

/-- A well-formed record whose dispatch the failing-sink scripts target. -/
def recFail : TrackingData :=
  { promptText := "will fail", promptId := "f1", sessionId := "s1" }

/-- Privacy settings with consent given and every category tracked. -/
def allOnPrivacy : PrivacySettings :=
  { supabaseTrackingEnabled := true, trackPrompts := true, trackTokens := true,
    trackMetadata := true, consentGiven := true }

/-- Privacy settings with tracking disabled (no consent). -/
def offPrivacy : PrivacySettings :=
  { supabaseTrackingEnabled := false, trackPrompts := true, trackTokens := true,
    trackMetadata := true, consentGiven := false }

/-- Privacy settings with consent given but prompt and token tracking off. -/
def redactPrivacy : PrivacySettings :=
  { supabaseTrackingEnabled := true, trackPrompts := false, trackTokens := false,
    trackMetadata := true, consentGiven := true }

/-- A dispatch whose promise always resolves successfully. -/
def okDispatch : TrackingData → Nat → DispatchOutcome × Nat :=
  fun _ rc => (DispatchOutcome.resolved true, rc)

/-- An insert script that keeps rejecting with a transient network error. -/
def netOuts : List InsertOutcome :=
  List.replicate 9 (InsertOutcome.throwErr "network error")

/-- Per-record insert scripts: the record `f1` always hits transient
network failures, every other record's insert succeeds at once. -/
def outsFor (d : TrackingData) : List InsertOutcome :=
  if d.promptId = "f1" then netOuts else [InsertOutcome.ok]

/-- An idle tracker with an empty queue and tracking fully enabled. -/
def s0 : TrackerState :=
  { pendingInteractions := [], isProcessing := false, privacy := allOnPrivacy,
    supabaseEnabled := true, sinkRetryCount := 0 }

/-- An idle tracker holding a full batch of ten pending records, the
first of which the scripted sink fails transiently. -/
def s10 : TrackerState :=
  { pendingInteractions := recFail :: List.replicate 9 rec0,
    isProcessing := false, privacy := allOnPrivacy, supabaseEnabled := true,
    sinkRetryCount := 0 }

/-- A tracker observed while a drain is mid-flight with one record left. -/
def busyState : TrackerState :=
  { pendingInteractions := [rec0], isProcessing := true, privacy := allOnPrivacy,
    supabaseEnabled := true, sinkRetryCount := 0 }

/-- A tracker with a pending record while the Supabase service is
disabled (reachable: `trackInteraction` checks only the privacy gate). -/
def disabledSinkState : TrackerState :=
  { pendingInteractions := [rec0], isProcessing := false, privacy := allOnPrivacy,
    supabaseEnabled := false, sinkRetryCount := 0 }

/-- A tracker with a pending record and the Supabase service enabled. -/
def enabledSinkState : TrackerState :=
  { pendingInteractions := [rec0], isProcessing := false, privacy := allOnPrivacy,
    supabaseEnabled := true, sinkRetryCount := 0 }

/-- A response-field set supplying an output token count and metadata. -/
def resp42 : ResponseData :=
  { outputTokenCount := some (JSNum.intVal 42),
    metadata := some [("model", "m1")] }

/-- The scenario record `pN` of claim C8. -/
def prec (n : Nat) : TrackingData :=
  { promptText := "prompt", promptId := "p" ++ toString n, sessionId := "s1" }

/-- A sink record whose submitted input token count is a negative
integer. -/
def negRecord : SinkRecord :=
  { prompt_text := "hi", prompt_id := "p1", session_id := "s1",
    input_token_count := some (JSNum.intVal (-1)) }

/-- All six token-count fields of a dispatched row are integer-valued. -/
def tokenFieldsAreIntegers (u : UserInteraction) : Bool :=
  u.input_token_count.isInteger && u.output_token_count.isInteger &&
    u.total_token_count.isInteger && u.cached_token_count.isInteger &&
    u.thoughts_token_count.isInteger && u.tool_token_count.isInteger

/-! Helper lemmas shared by the claim theorems. -/

/-- A dispatch built from `logUserInteraction` always resolves: every
path of the source sink wrapper returns a boolean. -/
theorem realDispatch_resolves (enabled : Bool) (userEmail : String)
    (outcomesFor : TrackingData → List InsertOutcome) (d : TrackingData) (rc : Nat) :
    (realDispatch enabled userEmail outcomesFor d rc).1 ≠ DispatchOutcome.rejected := by
  simp [realDispatch]

/-- One batch settlement under a never-rejecting dispatch leaves the
pending list of the accumulator unchanged. -/
theorem drainStep_fst_of_resolves {dispatch : TrackingData → Nat → DispatchOutcome × Nat}
    (h : ∀ d rc, (dispatch d rc).1 ≠ DispatchOutcome.rejected)
    (acc : List TrackingData × Nat) (d : TrackingData) :
    (drainStep dispatch acc d).1 = acc.1 := by
  unfold drainStep
  rcases hd : dispatch d acc.2 with ⟨out, rc2⟩
  cases out with
  | resolved b => simp
  | rejected => exact absurd (by rw [hd]) (h d acc.2)

/-- Folding the batch settlements under a never-rejecting dispatch
leaves the pending list of the accumulator unchanged. -/
theorem foldl_drainStep_fst {dispatch : TrackingData → Nat → DispatchOutcome × Nat}
    (h : ∀ d rc, (dispatch d rc).1 ≠ DispatchOutcome.rejected)
    (batch : List TrackingData) :
    ∀ acc : List TrackingData × Nat,
      (batch.foldl (drainStep dispatch) acc).1 = acc.1 := by
  induction batch with
  | nil => intro acc; rfl
  | cons d t ih =>
      intro acc
      rw [List.foldl_cons, ih]
      rcases acc with ⟨pend, rc⟩
      have := drainStep_fst_of_resolves h (pend, rc) d
      rcases hstep : drainStep dispatch (pend, rc) d with ⟨p2, r2⟩
      rw [hstep] at this
      exact this

/-- A drain against the real sink removes exactly the first `batchSize`
pending records and finishes with the processing flag clear. -/
theorem processReal_spec (enabled : Bool) (userEmail : String)
    (outcomesFor : TrackingData → List InsertOutcome) (s : TrackerState)
    (h : s.isProcessing = false) :
    (processPendingInteractions s (realDispatch enabled userEmail outcomesFor)).1.pendingInteractions
        = s.pendingInteractions.drop batchSize
    ∧ (processPendingInteractions s (realDispatch enabled userEmail outcomesFor)).1.isProcessing
        = false := by
  unfold processPendingInteractions
  by_cases hp : s.pendingInteractions = []
  · simp [h, hp]
  · rw [if_neg (by simp [h, hp])]
    refine ⟨?_, rfl⟩
    simpa using foldl_drainStep_fst (realDispatch_resolves enabled userEmail outcomesFor)
      (s.pendingInteractions.take batchSize)
      (s.pendingInteractions.drop batchSize, s.sinkRetryCount)

/-- With enough fuel — the pending count is enough — the flush loop
against the real sink empties the queue whenever no drain is in flight
at entry. -/
theorem flushAux_empties (enabled : Bool) (userEmail : String)
    (outcomesFor : TrackingData → List InsertOutcome) :
    ∀ (fuel : Nat) (s : TrackerState),
      s.pendingInteractions.length ≤ fuel → s.isProcessing = false →
      (flushAux (realDispatch enabled userEmail outcomesFor) fuel s).pendingInteractions = [] := by
  intro fuel
  induction fuel with
  | zero =>
      intro s hle _
      have : s.pendingInteractions = [] := List.eq_nil_of_length_eq_zero (Nat.le_zero.mp hle)
      simpa [flushAux] using this
  | succ n ih =>
      intro s hle hproc
      by_cases hp : s.pendingInteractions = []
      · simp [flushAux, hp]
      · have hpos : 0 < s.pendingInteractions.length := List.length_pos.mpr hp
        rw [flushAux, if_pos ⟨hpos, hproc⟩]
        have hspec := processReal_spec enabled userEmail outcomesFor s hproc
        apply ih _ _ hspec.2
        rw [hspec.1, List.length_drop]
        have hb : 1 ≤ batchSize := by decide
        omega

/-- Lookup in a spread-merged metadata object: a key of the supplied
object wins, any other key falls back to the existing object. -/
theorem lookupMeta_mergeMeta (k : String) (a b : Metadata) :
    lookupMeta k (mergeMeta a b) =
      match lookupMeta k b with
      | some v => some v
      | none => lookupMeta k a := by
  induction a with
  | nil =>
      simp only [mergeMeta, List.filter_nil, List.nil_append]
      cases hb : lookupMeta k b <;> simp [hb, lookupMeta]
  | cons p a ih =>
      simp only [mergeMeta, List.filter_cons] at *
      by_cases hq : (lookupMeta p.1 b).isNone
      · rw [if_pos (by simpa using hq), List.cons_append]
        by_cases hk : p.1 == k
        · have hkeq : p.1 = k := by simpa using hk
          have hbnone : lookupMeta k b = none := by
            rw [← hkeq]; simpa [Option.isNone_iff_eq_none] using hq
          simp [lookupMeta, hk, hbnone]
        · have hk2 : (p.1 == k) = false := by simpa using hk
          simp only [lookupMeta, hk2, Bool.false_eq_true, if_false]
          exact ih
      · rw [if_neg (by simpa using hq)]
        have hbsome : ∃ v, lookupMeta p.1 b = some v := by
          rcases hx : lookupMeta p.1 b with _ | v
          · rw [hx] at hq; simp at hq
          · exact ⟨v, rfl⟩
        rcases hbsome with ⟨v, hv⟩
        by_cases hk : p.1 == k
        · have hkeq : p.1 = k := by simpa using hk
          rw [ih]
          have hbk : lookupMeta k b = some v := by rw [← hkeq]; exact hv
          simp [lookupMeta, hbk, hk]
        · have hk2 : (p.1 == k) = false := by simpa using hk
          rw [ih]
          cases hbk : lookupMeta k b <;> simp [lookupMeta, hk2, hbk]

/-- Every row handed to the remote insert during one sink call is the
coerced `interactionData` built from the submitted record. -/
theorem insertAttempts_sentRecords (userEmail : String) (i : SinkRecord) :
    ∀ (outcomes : List InsertOutcome) (rc : Nat) (u : UserInteraction),
      u ∈ (insertAttempts userEmail i rc outcomes).sentRecords →
      u = buildInteractionData userEmail i := by
  intro outcomes
  induction outcomes with
  | nil =>
      intro rc u hu
      simpa [insertAttempts] using hu
  | cons o rest ih =>
      intro rc u hu
      cases o with
      | ok => simpa [insertAttempts] using hu
      | dbError c m => simpa [insertAttempts] using hu
      | throwErr msg =>
          by_cases ht : isTransientMessage msg = true
          · by_cases hrc : maxRetries ≤ rc
            · simpa [insertAttempts, ht, hrc] using hu
            · simp only [insertAttempts, ht, if_pos rfl, if_neg hrc, if_true] at hu
              rcases List.mem_cons.mp hu with h | h
              · exact h
              · exact ih (rc + 1) u h
          · have ht2 : isTransientMessage msg = false := by simpa using ht
            simpa [insertAttempts, ht2] using hu

/-- Coercion through `Number.isInteger` always yields an integer. -/
theorem coerceTokenField_isInteger (v : Option JSNum) :
    (coerceTokenField v).isInteger = true := by
  rcases v with _ | n
  · rfl
  · cases n <;> rfl

/-- Every coerced row has integer-valued token fields. -/
theorem tokenFields_build (userEmail : String) (i : SinkRecord) :
    tokenFieldsAreIntegers (buildInteractionData userEmail i) = true := by
  simp [tokenFieldsAreIntegers, buildInteractionData, coerceTokenField_isInteger]

/-! Claim theorems. -/

/-- Claim C3: while tracking is disabled (`isTrackingEnabled` false) a
`trackInteraction` call is a complete no-op — the state (pending queue,
privacy settings including `lastPromptDate`, every flag and counter) is
unchanged, no sink dispatch is begun, and the batch processor is not
invoked. -/
theorem claim_C3_disabled_noop (dispatch : TrackingData → Nat → DispatchOutcome × Nat)
    (s : TrackerState) (now : String) (data : TrackingData)
    (h : isTrackingEnabled s.privacy = false) :
    trackInteraction dispatch s now data = ⟨s, [], false⟩ := by
  simp [trackInteraction, h]

/-- Witness for claim C3 at a concrete disabled state. -/
theorem claim_C3_witness :
    isTrackingEnabled offPrivacy = false ∧
      trackInteraction okDispatch
          { pendingInteractions := [], isProcessing := false, privacy := offPrivacy,
            supabaseEnabled := true, sinkRetryCount := 0 } "t0" rec0
        = ⟨{ pendingInteractions := [], isProcessing := false, privacy := offPrivacy,
             supabaseEnabled := true, sinkRetryCount := 0 }, [], false⟩ :=
  ⟨by decide,
    claim_C3_disabled_noop okDispatch
      { pendingInteractions := [], isProcessing := false, privacy := offPrivacy,
        supabaseEnabled := true, sinkRetryCount := 0 } "t0" rec0 (by decide)⟩

/-- Claim C4: with tracking enabled, redaction is independent per
category — `promptText` becomes the non-empty sentinel exactly when
`trackPrompts` is false, all six token fields become absent exactly when
`trackTokens` is false, `metadata` becomes absent exactly when
`trackMetadata` is false, and `promptId` and `sessionId` are always
preserved. -/
theorem claim_C4_redaction_independent (p : PrivacySettings) (d : TrackingData)
    (h : isTrackingEnabled p = true) :
    ((filterTrackingData p d).promptId = d.promptId
      ∧ (filterTrackingData p d).sessionId = d.sessionId)
    ∧ (("[REDACTED]" : String) ≠ ""
      ∧ (filterTrackingData p d).promptText
          = (if p.trackPrompts then d.promptText else "[REDACTED]"))
    ∧ ((filterTrackingData p d).inputTokenCount
          = (if p.trackTokens then d.inputTokenCount else none)
      ∧ (filterTrackingData p d).outputTokenCount
          = (if p.trackTokens then d.outputTokenCount else none)
      ∧ (filterTrackingData p d).totalTokenCount
          = (if p.trackTokens then d.totalTokenCount else none)
      ∧ (filterTrackingData p d).cachedTokenCount
          = (if p.trackTokens then d.cachedTokenCount else none)
      ∧ (filterTrackingData p d).thoughtsTokenCount
          = (if p.trackTokens then d.thoughtsTokenCount else none)
      ∧ (filterTrackingData p d).toolTokenCount
          = (if p.trackTokens then d.toolTokenCount else none))
    ∧ (filterTrackingData p d).metadata
        = (if p.trackMetadata then d.metadata else none) := by
  refine ⟨⟨rfl, rfl⟩, ⟨by decide, ?_⟩, ⟨?_, ?_, ?_, ?_, ?_, ?_⟩, ?_⟩ <;>
    simp [filterTrackingData, shouldTrackPrompts, shouldTrackTokens, shouldTrackMetadata, h]

/-- Witness for claim C4 at enabled settings with prompts and tokens
redacted but metadata kept. -/
theorem claim_C4_witness :
    isTrackingEnabled redactPrivacy = true ∧
      (((filterTrackingData redactPrivacy rec0).promptId = rec0.promptId
        ∧ (filterTrackingData redactPrivacy rec0).sessionId = rec0.sessionId)
      ∧ (("[REDACTED]" : String) ≠ ""
        ∧ (filterTrackingData redactPrivacy rec0).promptText
            = (if redactPrivacy.trackPrompts then rec0.promptText else "[REDACTED]"))
      ∧ ((filterTrackingData redactPrivacy rec0).inputTokenCount
            = (if redactPrivacy.trackTokens then rec0.inputTokenCount else none)
        ∧ (filterTrackingData redactPrivacy rec0).outputTokenCount
            = (if redactPrivacy.trackTokens then rec0.outputTokenCount else none)
        ∧ (filterTrackingData redactPrivacy rec0).totalTokenCount
            = (if redactPrivacy.trackTokens then rec0.totalTokenCount else none)
        ∧ (filterTrackingData redactPrivacy rec0).cachedTokenCount
            = (if redactPrivacy.trackTokens then rec0.cachedTokenCount else none)
        ∧ (filterTrackingData redactPrivacy rec0).thoughtsTokenCount
            = (if redactPrivacy.trackTokens then rec0.thoughtsTokenCount else none)
        ∧ (filterTrackingData redactPrivacy rec0).toolTokenCount
            = (if redactPrivacy.trackTokens then rec0.toolTokenCount else none))
      ∧ (filterTrackingData redactPrivacy rec0).metadata
          = (if redactPrivacy.trackMetadata then rec0.metadata else none)) :=
  ⟨by decide, claim_C4_redaction_independent redactPrivacy rec0 (by decide)⟩

/-- Claim C7: a drain request arriving while the processing flag is set
is a no-op — the state is returned unchanged and no record's dispatch is
begun, whatever the dispatch behaviour. -/
theorem claim_C7_mutual_exclusion (s : TrackerState)
    (dispatch : TrackingData → Nat → DispatchOutcome × Nat)
    (h : s.isProcessing = true) :
    processPendingInteractions s dispatch = (s, []) := by
  simp [processPendingInteractions, h]

/-- Witness for claim C7 at a concrete mid-drain state. -/
theorem claim_C7_witness :
    busyState.isProcessing = true ∧
      processPendingInteractions busyState okDispatch = (busyState, []) :=
  ⟨by decide, claim_C7_mutual_exclusion busyState okDispatch (by decide)⟩

/-- Claim C10: the privacy filter never alters `responseDurationMs`, nor
any of `promptId`, `sessionId`, `modelName`, `authType`, under every
combination of privacy settings. -/
theorem claim_C10_duration_preserved (p : PrivacySettings) (d : TrackingData) :
    (filterTrackingData p d).responseDurationMs = d.responseDurationMs
    ∧ (filterTrackingData p d).promptId = d.promptId
    ∧ (filterTrackingData p d).sessionId = d.sessionId
    ∧ (filterTrackingData p d).modelName = d.modelName
    ∧ (filterTrackingData p d).authType = d.authType :=
  ⟨rfl, rfl, rfl, rfl, rfl⟩

/-- Counterexample to claim C1: a full batch of ten pending records in
which the record `f1` fails with transient network errors on every
insert attempt while the other nine succeed.  The claim predicts the
failed record back at the head of the pending queue and a pending-count
decrease of 9; in fact the sink retries `f1` internally and resolves
false, the batch-level re-enqueue never fires, the queue ends empty and
the count decreases by the full 10. -/
theorem claim_C1_counterexample :
    isTransientMessage "network error" = true
    ∧ (logUserInteraction true "u@example.com" (toInteraction recFail) 0 netOuts).success = false
    ∧ (logUserInteraction true "u@example.com" (toInteraction rec0) 0 [InsertOutcome.ok]).success = true
    ∧ (processPendingInteractions s10
        (realDispatch true "u@example.com" outsFor)).1.pendingInteractions = []
    ∧ ¬ (processPendingInteractions s10
        (realDispatch true "u@example.com" outsFor)).1.pendingInteractions = [recFail] := by
  refine ⟨by decide, by decide, by decide, by decide, by decide⟩

/-- Claim C1 as amended: the batch processor pushes a record back onto
the head of the pending queue only when its dispatch promise rejects;
the sink wrapper catches transient network failures, retries them
internally and resolves false instead of rejecting, so every drained
record is removed permanently: a drain always leaves exactly the pending
records beyond the first `batchSize`, whatever the insert outcomes, and
clears the processing flag. -/
theorem claim_C1_amended (enabled : Bool) (userEmail : String)
    (outcomesFor : TrackingData → List InsertOutcome) (s : TrackerState)
    (h : s.isProcessing = false) :
    (processPendingInteractions s (realDispatch enabled userEmail outcomesFor)).1.pendingInteractions
        = s.pendingInteractions.drop batchSize
    ∧ (processPendingInteractions s (realDispatch enabled userEmail outcomesFor)).1.isProcessing
        = false :=
  processReal_spec enabled userEmail outcomesFor s h

/-- Witness for the amended claim C1 at the concrete ten-record state
with one transiently failing record. -/
theorem claim_C1_witness :
    s10.isProcessing = false ∧
      ((processPendingInteractions s10
        (realDispatch true "u@example.com" outsFor)).1.pendingInteractions
          = s10.pendingInteractions.drop batchSize
      ∧ (processPendingInteractions s10
          (realDispatch true "u@example.com" outsFor)).1.isProcessing = false) :=
  ⟨by decide, claim_C1_amended true "u@example.com" outsFor s10 (by decide)⟩

/-- Counterexample to claim C2: `flush` called while a drain is
mid-flight (`isProcessing` true) with one record still pending returns
immediately, leaving the pending count at 1, because the loop condition
`pending.length > 0 && !isProcessing` is already false. -/
theorem claim_C2_counterexample :
    busyState.isProcessing = true
    ∧ flush true "u@example.com" (fun _ => [InsertOutcome.ok]) busyState = busyState
    ∧ ¬ ((flush true "u@example.com" (fun _ => [InsertOutcome.ok])
          busyState).pendingInteractions.length = 0) := by
  refine ⟨by decide, by decide, by decide⟩

/-- Claim C2 as amended: `flush` loops drain attempts until the pending
queue is empty OR a drain is active — if no drain is in flight when it
is called it resolves with pending count 0 (for any insert outcomes),
but if a drain is mid-flight it resolves immediately with the state,
and hence the pending records, untouched. -/
theorem claim_C2_amended (enabled : Bool) (userEmail : String)
    (outcomesFor : TrackingData → List InsertOutcome) (s : TrackerState) :
    (s.isProcessing = true → flush enabled userEmail outcomesFor s = s)
    ∧ (s.isProcessing = false →
        (flush enabled userEmail outcomesFor s).pendingInteractions = []) := by
  constructor
  · intro h
    unfold flush
    cases hl : s.pendingInteractions.length with
    | zero => rfl
    | succ n => simp [flushAux, h]
  · intro h
    exact flushAux_empties enabled userEmail outcomesFor s.pendingInteractions.length s
      (Nat.le_refl _) h

/-- Witness for the amended claim C2 at a concrete idle state with one
pending record. -/
theorem claim_C2_witness :
    enabledSinkState.isProcessing = false ∧
      (flush true "u@example.com" (fun _ => [InsertOutcome.ok])
        enabledSinkState).pendingInteractions = [] :=
  ⟨by decide,
    (claim_C2_amended true "u@example.com" (fun _ => [InsertOutcome.ok])
      enabledSinkState).2 (by decide)⟩

/-- Counterexample to claim C5: `updateInteractionWithResponse` is not a
pure function of the pending queue — when the Supabase service is
disabled (which is independent of the privacy gate that admits records
into the queue) the call returns without touching a matching pending
record, so the record's output token count is not overwritten as the
claim requires. -/
theorem claim_C5_counterexample :
    disabledSinkState.pendingInteractions.map (fun d => d.promptId) = ["p1"]
    ∧ updateInteractionWithResponse disabledSinkState "p1" resp42 = disabledSinkState
    ∧ ¬ ((updateInteractionWithResponse disabledSinkState "p1"
          resp42).pendingInteractions.map (fun d => d.outputTokenCount)
        = [some (JSNum.intVal 42)]) := by
  refine ⟨by decide, by decide, by decide⟩

/-- Claim C5 as amended: provided the Supabase service is enabled, an
update targeting a pending `promptId` replaces that record in place by
the merge — supplied scalar fields overwrite, metadata merges key-wise,
fields the update cannot carry are untouched — keeping its queue
position and the pending count, while an unknown id (and, always, the
pending count) is left untouched; when the service is disabled the call
is a silent no-op even on a match. -/
theorem claim_C5_amended (s : TrackerState) (pid : String) (r : ResponseData)
    (hEn : s.supabaseEnabled = true) :
    (s.pendingInteractions.findIdx? (fun it => it.promptId == pid) = none →
      updateInteractionWithResponse s pid r = s)
    ∧ (∀ i e, s.pendingInteractions.findIdx? (fun it => it.promptId == pid) = some i →
        s.pendingInteractions[i]? = some e →
        (updateInteractionWithResponse s pid r).pendingInteractions
          = s.pendingInteractions.set i (mergeResponse e r))
    ∧ (∀ j i, s.pendingInteractions.findIdx? (fun it => it.promptId == pid) = some i →
        ¬ j = i →
        (updateInteractionWithResponse s pid r).pendingInteractions[j]?
          = s.pendingInteractions[j]?)
    ∧ ((updateInteractionWithResponse s pid r).pendingInteractions.length
        = s.pendingInteractions.length)
    ∧ (∀ e : TrackingData,
          ((mergeResponse e r).promptId = e.promptId
        ∧ (mergeResponse e r).sessionId = e.sessionId
        ∧ (mergeResponse e r).promptText = e.promptText
        ∧ (mergeResponse e r).inputTokenCount = e.inputTokenCount)
        ∧ (r.outputTokenCount = none →
            (mergeResponse e r).outputTokenCount = e.outputTokenCount)
        ∧ (∀ v, r.outputTokenCount = some v →
            (mergeResponse e r).outputTokenCount = some v)
        ∧ (∀ k, lookupMeta k ((mergeResponse e r).metadata.getD [])
            = match lookupMeta k (r.metadata.getD []) with
              | some v => some v
              | none => lookupMeta k (e.metadata.getD []))) := by
  refine ⟨?_, ?_, ?_, ?_, ?_⟩
  · intro hf
    simp [updateInteractionWithResponse, hEn, hf]
  · intro i e hf hg
    simp [updateInteractionWithResponse, hEn, hf, hg]
  · intro j i hf hj
    unfold updateInteractionWithResponse
    rw [if_neg (by simp [hEn]), hf]
    show (match s.pendingInteractions[i]? with
      | none => s
      | some existing =>
          { s with pendingInteractions :=
              s.pendingInteractions.set i (mergeResponse existing r) }).pendingInteractions[j]?
        = s.pendingInteractions[j]?
    cases hg : s.pendingInteractions[i]? with
    | none => rfl
    | some e =>
        simpa using List.getElem?_set_ne (l := s.pendingInteractions)
          (a := mergeResponse e r) (fun hij => hj hij.symm)
  · unfold updateInteractionWithResponse
    rw [if_neg (by simp [hEn])]
    cases hf : s.pendingInteractions.findIdx? (fun it => it.promptId == pid) with
    | none => rfl
    | some i =>
        show (match s.pendingInteractions[i]? with
          | none => s
          | some existing =>
              { s with pendingInteractions :=
                  s.pendingInteractions.set i (mergeResponse existing r) }).pendingInteractions.length
            = s.pendingInteractions.length
        cases hg : s.pendingInteractions[i]? with
        | none => rfl
        | some e => simp
  · intro e
    refine ⟨⟨rfl, rfl, rfl, rfl⟩, ?_, ?_, ?_⟩
    · intro h; simp [mergeResponse, spreadField, h]
    · intro v h; simp [mergeResponse, spreadField, h]
    · intro k
      have : (mergeResponse e r).metadata.getD []
          = mergeMeta (e.metadata.getD []) (r.metadata.getD []) := rfl
      rw [this, lookupMeta_mergeMeta]

/-- Witness for the amended claim C5: the update at a matching id on an
enabled state performs the in-place merge at position 0. -/
theorem claim_C5_witness :
    enabledSinkState.supabaseEnabled = true ∧
      (updateInteractionWithResponse enabledSinkState "p1" resp42).pendingInteractions
        = enabledSinkState.pendingInteractions.set 0 (mergeResponse rec0 resp42) :=
  ⟨by decide,
    (claim_C5_amended enabledSinkState "p1" resp42 (by decide)).2.1 0 rec0
      (by decide) (by decide)⟩

/-- Counterexample to claim C6: under persistent transient network
failures a record's dispatch makes 4 insert attempts (the initial one
plus `maxRetries` = 3 retries), not at most 3 as the claim states. -/
theorem claim_C6_counterexample :
    (logUserInteraction true "u@example.com" (toInteraction recFail) 0 netOuts).attempts = 4
    ∧ ¬ ((logUserInteraction true "u@example.com"
          (toInteraction recFail) 0 netOuts).attempts ≤ 3) := by
  refine ⟨by decide, by decide⟩

/-- Claim C6 as amended: for a record whose inserts keep failing with
transient network errors, the sink starting from a fresh retry counter
makes exactly 4 insert attempts in total — the initial attempt plus 3
retries with exponential backoff delays of `1000 * 2 ^ (attempt - 1)` ms
(1 s, 2 s, 4 s) — then gives up, resolving false with the shared counter
reset to 0 and no further attempts (extra scripted failures are never
consumed); and a successful send resets the shared retry counter to 0
from any value. -/
theorem claim_C6_amended (userEmail : String) (i : SinkRecord) (rc : Nat)
    (h1 : ¬ i.prompt_text = "") (h2 : ¬ i.prompt_id = "") (h3 : ¬ i.session_id = "") :
    logUserInteraction true userEmail i 0
        (List.replicate 9 (InsertOutcome.throwErr "network error"))
      = ⟨false, 0, 4, [1000, 2000, 4000],
          List.replicate 4 (buildInteractionData userEmail i)⟩
    ∧ logUserInteraction true userEmail i rc [InsertOutcome.ok]
      = ⟨true, 0, 1, [], [buildInteractionData userEmail i]⟩ := by
  have hvalid : ¬ (i.prompt_text = "" ∨ i.prompt_id = "" ∨ i.session_id = "") := by
    simp [h1, h2, h3]
  have hnet : isTransientMessage "network error" = true := by decide
  constructor
  · unfold logUserInteraction
    rw [if_neg (by simp), if_neg hvalid]
    simp [insertAttempts, hnet, maxRetries, retryDelay, List.replicate]
  · unfold logUserInteraction
    rw [if_neg (by simp), if_neg hvalid]
    rfl

/-- Witness for the amended claim C6 at the concrete failing record and
a non-zero entry counter for the success branch. -/
theorem claim_C6_witness :
    (¬ (toInteraction recFail).prompt_text = ""
      ∧ ¬ (toInteraction recFail).prompt_id = ""
      ∧ ¬ (toInteraction recFail).session_id = "")
    ∧ (logUserInteraction true "u@example.com" (toInteraction recFail) 0
          (List.replicate 9 (InsertOutcome.throwErr "network error"))
        = ⟨false, 0, 4, [1000, 2000, 4000],
            List.replicate 4 (buildInteractionData "u@example.com" (toInteraction recFail))⟩
      ∧ logUserInteraction true "u@example.com" (toInteraction recFail) 2 [InsertOutcome.ok]
        = ⟨true, 0, 1, [], [buildInteractionData "u@example.com" (toInteraction recFail)]⟩) :=
  ⟨⟨by decide, by decide, by decide⟩,
    claim_C6_amended "u@example.com" (toInteraction recFail) 2
      (by decide) (by decide) (by decide)⟩

/-- Claim C8: with tracking enabled, `trackInteraction` appends the
filtered record to the tail of the pending queue; below the batch-size
threshold it does nothing else, and it invokes an immediate drain
exactly when the pending count has reached `batchSize`; in the concrete
scenario, tracking `p1..p12` against an always-successful sink invokes
exactly one automatic drain — at `p10`, when the count reaches 10 —
leaving exactly `p11, p12` pending. -/
theorem claim_C8_enqueue_and_trigger (dispatch : TrackingData → Nat → DispatchOutcome × Nat)
    (s : TrackerState) (now : String) (data : TrackingData)
    (hEn : isTrackingEnabled s.privacy = true) :
    (s.pendingInteractions.length + 1 < batchSize →
      trackInteraction dispatch s now data
        = ⟨{ s with
             pendingInteractions := s.pendingInteractions ++ [filterTrackingData s.privacy data]
             privacy := updateLastPromptDate s.privacy now }, [], false⟩)
    ∧ (batchSize ≤ s.pendingInteractions.length + 1 →
        (trackInteraction dispatch s now data).drainInvoked = true)
    ∧ ((runTracks (realDispatch true "u@example.com" (fun _ => [InsertOutcome.ok])) "t0" s0
          [prec 1, prec 2, prec 3, prec 4, prec 5, prec 6,
           prec 7, prec 8, prec 9, prec 10, prec 11, prec 12]).2 = 1
      ∧ (runTracks (realDispatch true "u@example.com" (fun _ => [InsertOutcome.ok])) "t0" s0
          [prec 1, prec 2, prec 3, prec 4, prec 5, prec 6,
           prec 7, prec 8, prec 9, prec 10, prec 11, prec 12]).1.pendingInteractions
        = [prec 11, prec 12]) := by
  refine ⟨?_, ?_, by decide, by decide⟩
  · intro hlt
    unfold trackInteraction
    rw [if_neg (by simp [hEn])]
    rw [if_neg (by simpa using Nat.not_le_of_lt hlt)]
  · intro hge
    unfold trackInteraction
    rw [if_neg (by simp [hEn])]
    rw [if_pos (by simpa using hge)]

/-- Witness for claim C8: the first tracked record is appended to the
tail of an empty queue with no drain invoked. -/
theorem claim_C8_witness :
    isTrackingEnabled s0.privacy = true ∧
      trackInteraction okDispatch s0 "t0" rec0
        = ⟨{ s0 with
             pendingInteractions := s0.pendingInteractions ++ [filterTrackingData s0.privacy rec0]
             privacy := updateLastPromptDate s0.privacy "t0" }, [], false⟩ :=
  ⟨by decide,
    (claim_C8_enqueue_and_trigger okDispatch s0 "t0" rec0 (by decide)).1 (by decide)⟩

/-- Counterexample to claim C9: the sink's coercion checks only
`Number.isInteger`, not the sign, so a submitted negative integer token
count is dispatched unchanged — the claim's non-negativity fails. -/
theorem claim_C9_counterexample :
    (buildInteractionData "u@example.com" negRecord).input_token_count = JSNum.intVal (-1)
    ∧ ((logUserInteraction true "u@example.com" negRecord 0 [InsertOutcome.ok]).sentRecords.map
        (fun u => u.input_token_count)) = [JSNum.intVal (-1)]
    ∧ ¬ (0 ≤ (-1 : Int)) := by
  refine ⟨by decide, by decide, by decide⟩

/-- Claim C9 as amended: at the sink boundary every row actually handed
to the remote insert is the coerced `interactionData`, whose six token
fields are always integers; each token field is passed through unchanged
when the submitted value is an integer (including a negative one) and
coerced to 0 when it is missing or not an integer — non-negativity is
not enforced. -/
theorem claim_C9_token_coercion (enabled : Bool) (userEmail : String) (i : SinkRecord)
    (rc : Nat) (outcomes : List InsertOutcome) :
    ((logUserInteraction enabled userEmail i rc outcomes).sentRecords.all
        (fun u => tokenFieldsAreIntegers u && u == buildInteractionData userEmail i) = true)
    ∧ ((buildInteractionData userEmail i).input_token_count
          = coerceTokenField i.input_token_count
      ∧ (buildInteractionData userEmail i).output_token_count
          = coerceTokenField i.output_token_count
      ∧ (buildInteractionData userEmail i).total_token_count
          = coerceTokenField i.total_token_count
      ∧ (buildInteractionData userEmail i).cached_token_count
          = coerceTokenField i.cached_token_count
      ∧ (buildInteractionData userEmail i).thoughts_token_count
          = coerceTokenField i.thoughts_token_count
      ∧ (buildInteractionData userEmail i).tool_token_count
          = coerceTokenField i.tool_token_count)
    ∧ (coerceTokenField none = JSNum.intVal 0
      ∧ coerceTokenField (some JSNum.nonInt) = JSNum.intVal 0
      ∧ ∀ n : Int, coerceTokenField (some (JSNum.intVal n)) = JSNum.intVal n) := by
  refine ⟨?_, ⟨rfl, rfl, rfl, rfl, rfl, rfl⟩, ⟨rfl, rfl, fun n => rfl⟩⟩
  rw [List.all_eq_true]
  intro u hu
  have hsent : u = buildInteractionData userEmail i := by
    unfold logUserInteraction at hu
    by_cases he : enabled = false
    · rw [if_pos he] at hu; simp at hu
    · rw [if_neg he] at hu
      by_cases hv : i.prompt_text = "" ∨ i.prompt_id = "" ∨ i.session_id = ""
      · rw [if_pos hv] at hu; simp at hu
      · rw [if_neg hv] at hu
        exact insertAttempts_sentRecords userEmail i outcomes rc u hu
  subst hsent
  simp [tokenFields_build]

end Telemetry
